import Mathlib

/-!
Verification of the ETN blog-production pipeline
(`src/blog_production_crewai.py`) against its specification.

The Python module is shallowly embedded:

* Python `str` values are Lean `String`s; the handful of `str` methods the
  module uses (`split('\n')`, `split()`, `startswith`, `replace`, `strip`)
  are modelled below as executable functions on the underlying character
  lists, so that every theorem can be evaluated on concrete inputs.
* The OpenAI chat-completion call is the single effectful seam.  It is
  modelled as a `Gateway`: a function from the call's arguments (model,
  system message, user prompt, max_tokens, temperature) to
  `Except String String` — `.ok text` for a successful completion,
  `.error cause` for a raised exception (`str(e)` of the Python exception).
* Each stage function records the call it made, so that the number of
  gateway invocations of a run is observable (`List CallRecord`).
* `datetime.now()` is modelled by an explicit `PyDateTime` argument.
-/

/-- Python whitespace for `str.split()` / `str.strip()` (ASCII part; the
source never feeds non-ASCII whitespace to these). -/
def isPySpace (c : Char) : Bool :=
  c = ' ' || c = '\t' || c = '\n' || c = '\r' || c = '\x0b' || c = '\x0c'

/-- Split a character list at every character satisfying `p`, keeping empty
pieces — the behaviour of Python `str.split(sep)` for a one-character
separator (via `p := (· = sep)`).  The result is always non-empty. -/
def splitOnPList (p : Char → Bool) : List Char → List (List Char)
  | [] => [[]]
  | c :: cs =>
    let r := splitOnPList p cs
    if p c then [] :: r
    else
      match r with
      | [] => [[c]]
      | t :: ts => (c :: t) :: ts

/-- Python `s.split('\n')`. -/
def pySplitLines (s : String) : List String :=
  (splitOnPList (fun c => c = '\n') s.data).map (fun l => String.mk l)

/-- Python `s.split()` (no separator): whitespace runs separate tokens and
no empty tokens are produced. -/
def pySplit (s : String) : List String :=
  ((splitOnPList isPySpace s.data).filter (fun t => t ≠ [])).map (fun l => String.mk l)

/-- Python `s.startswith(pre)`. -/
def pyStartsWith (s pre : String) : Bool :=
  pre.data.isPrefixOf s.data

/-- Python `s.strip()`: remove leading and trailing whitespace. -/
def pyStrip (s : String) : String :=
  String.mk (((s.data.dropWhile isPySpace).reverse.dropWhile isPySpace).reverse)

/-- Worker for Python `str.replace`: scan left to right, replacing each
non-overlapping occurrence of `pat`.  `fuel` starts at the length of the
scanned list; each step consumes at least one character (the module only
ever replaces non-empty patterns), so the fuel never runs out before the
scan finishes. -/
def pyReplaceAux (pat repl : List Char) : Nat → List Char → List Char
  | 0, s => s
  | _ + 1, [] => []
  | fuel + 1, c :: cs =>
    if pat.isPrefixOf (c :: cs) then
      repl ++ pyReplaceAux pat repl fuel ((c :: cs).drop pat.length)
    else
      c :: pyReplaceAux pat repl fuel cs

/-- Python `s.replace(pat, repl)`: every non-overlapping occurrence of
`pat` in `s` is replaced by `repl` (not only a leading one). -/
def pyReplace (s pat repl : String) : String :=
  String.mk (pyReplaceAux pat.data repl.data s.data.length s.data)

/-- The value a `META TITLE:` line contributes
(src line 276: `line.replace("META TITLE:", "").strip()`). -/
def titleVal (line : String) : String :=
  pyStrip (pyReplace line "META TITLE:" "")

/-- The value a `META DESCRIPTION:` line contributes
(src line 278: `line.replace("META DESCRIPTION:", "").strip()`). -/
def descVal (line : String) : String :=
  pyStrip (pyReplace line "META DESCRIPTION:" "")

/-- The body of the `for line in lines` loop of `extract_meta_data`
(src lines 274-278), as a fold step over the `(meta_title,
meta_description)` accumulator. -/
def processLine (acc : String × String) (line : String) : String × String :=
  if pyStartsWith line "META TITLE:" then
    (titleVal line, acc.2)
  else if pyStartsWith line "META DESCRIPTION:" then
    (acc.1, descVal line)
  else acc

/-- `extract_meta_data` (src lines 269-280): split on newlines, walk the
lines updating the two fields, both of which start as `""`. -/
def extract_meta_data (seo_content : String) : String × String :=
  (pySplitLines seo_content).foldl processLine ("", "")

/-- A line that begins with one of the two marker prefixes — the only lines
`extract_meta_data`'s loop body reacts to. -/
def isMarkerLine (line : String) : Bool :=
  pyStartsWith line "META TITLE:" || pyStartsWith line "META DESCRIPTION:"

example :
    extract_meta_data "META TITLE: A\nfiller\nMETA DESCRIPTION: B" = ("A", "B") := by
  decide

example : extract_meta_data "no markers" = ("", "") := by decide

example : pySplit "  a  b \n c" = ["a", "b", "c"] := by decide

example : extract_meta_data "META TITLE: A META TITLE: B" = ("A  B", "") := by decide

/-- `BlogContentRequest` (src lines 27-35).  `desired_word_count` is a
`Nat` (the spec's data model calls it a positive integer); the two
optional string fields model Pydantic's `= None` defaults. -/
structure BlogContentRequest where
  blog_topic : String
  primary_keywords : String
  target_audience : String
  call_to_action : String
  desired_word_count : Nat := 4000
  requester_email : String
  task_id : Option String := none
  publish_date : Option String := none
deriving DecidableEq

/-- The arguments of one `openai.ChatCompletion.create` call
(src lines 98-106 and the three analogous call sites).  Python's float
temperatures 0.7 and 0.5 are recorded exactly as tenths. -/
structure CallRecord where
  model : String
  system : String
  prompt : String
  maxTokens : Nat
  temperatureTenths : Nat
deriving DecidableEq

/-- The model-call capability: the outcome of one chat-completion call —
`.ok text` is `response.choices[0].message.content`, `.error cause` is a
raised exception with `str(e) = cause`. -/
abbrev Gateway := CallRecord → Except String String

/-- `ETN_BRAND_VOICE` (src lines 38-49). -/
def ETN_BRAND_VOICE : String :=
  "
ETN Brand Voice Guidelines:
- Friendly yet professional: Write as a trusted travel companion, not a salesperson
- Inclusive and accessible: Use language that welcomes all travelers, especially those with accessibility needs
- Practical and actionable: Provide specific, useful advice rather than generic statements
- Warm and inspiring: Encourage travel while acknowledging challenges some travelers face
- Authoritative but not condescending: Demonstrate expertise without talking down to readers
- Avoid clichés and overly enthusiastic language like \"amazing,\" \"incredible,\" or \"must-see\"
- Use clear, straightforward language that avoids jargon
- Never end with generic phrases like \"So buckle up and start planning your dream vacation!\"
- Focus on practical information, authentic experiences, and inclusive travel options
"

/-- `ETN_SEO_GUIDELINES` (src lines 52-65). -/
def ETN_SEO_GUIDELINES : String :=
  "
ETN SEO Guidelines:
- Focus on organic search optimization only (no paid advertising strategies)
- Follow white-hat SEO practices exclusively
- Target keywords must be naturally integrated throughout the content
- Include primary keywords in title, meta description, H1, and at least one H2
- Structure content with proper heading hierarchy (H1, H2, H3)
- Create comprehensive content that thoroughly addresses the search intent
- Include internal linking opportunities to relevant ETN content
- Ensure all images have descriptive alt text for accessibility and SEO
- Focus on underserved traveler groups (accessible travel, senior travelers, pet owners, etc.)
- Provide specific, actionable advice rather than general statements
- Address common questions and pain points from the target audience
"

/-- The research-stage user prompt, the f-string of src lines 70-96. -/
def researchPrompt (blog_request : BlogContentRequest) : String :=
  "
        Research the topic: '" ++ blog_request.blog_topic ++ "' thoroughly and comprehensively.
        Focus on the target audience: " ++ blog_request.target_audience ++ ".
        Consider these keywords: " ++ blog_request.primary_keywords ++ ".
        
        Provide extensive, in-depth research including:
        1. Key facts and statistics with credible sources
        2. Current trends and future predictions in the travel industry
        3. Expert opinions and quotes from travel authorities
        4. Detailed case studies and relevant examples of real travel experiences
        5. Comprehensive keyword analysis for SEO (primary and related long-tail keywords)
        6. Common questions and pain points from the target audience
        7. Specific, actionable advice for travelers (not generic statements)
        
        For ETN's audience specifically:
        - If researching accessible travel: Include specific accessibility features, regulations, and accommodations
        - If researching pet travel: Include pet policies, requirements, and pet-friendly accommodations
        - If researching family travel: Include child-friendly activities, safety considerations, and family discounts
        - If researching senior travel: Include mobility considerations, senior discounts, and medical information
        
        Format your research in a highly structured way with clear sections, subsections, and bullet points.
        Include at least 10-15 key insights that will make this blog post stand out as authoritative and valuable.
        Aim for depth and comprehensiveness - this research will be used to create a detailed " ++ toString blog_request.desired_word_count ++ "-word blog post.
        
        Remember that ETN (Effortless Travel Now) focuses on making travel accessible and enjoyable for all travelers, 
        with special emphasis on those with accessibility needs, pet owners, families, and seniors.
        "

/-- The part of the draft-stage f-string (src lines 116-150) that precedes
the interpolated research text. -/
def writePromptHead (blog_request : BlogContentRequest) : String :=
  "
        Write a comprehensive, in-depth blog post on: '" ++ blog_request.blog_topic ++ "'.
        Target audience: " ++ blog_request.target_audience ++ "
        Primary keywords: " ++ blog_request.primary_keywords ++ "
        Word count: " ++ toString blog_request.desired_word_count ++ " words (aim for at least " ++ toString blog_request.desired_word_count ++ " words)
        Call to action: " ++ blog_request.call_to_action ++ "
        
        Use this research to create an authoritative, valuable blog post:
        "

/-- The part of the draft-stage f-string (src lines 116-150) that follows
the interpolated research text. -/
def writePromptTail (blog_request : BlogContentRequest) : String :=
  "
        
        Structure requirements:
        - Compelling, attention-grabbing introduction that establishes the importance of the topic
        - At least 7-10 main sections with descriptive headings (H2s) that include target keywords
        - Multiple subsections (H3s) under each main section
        - Detailed examples, case studies, and actionable advice in each section
        - Expert quotes or statistics with sources to support key points
        - Visual element suggestions (images, infographics, charts) at appropriate points
        - Comprehensive conclusion that summarizes key takeaways
        - Strong call to action: " ++ blog_request.call_to_action ++ "
        
        Content quality requirements:
        - Provide specific, actionable advice rather than general statements
        - Include step-by-step instructions where appropriate
        - Address common questions and objections from the target audience
        - Use a conversational yet authoritative tone
        - Incorporate storytelling elements to engage readers
        - Ensure content is original, engaging, and provides exceptional value
        - Focus on practical information that helps readers solve real travel problems
        
        " ++ ETN_BRAND_VOICE ++ "
        
        This should be a definitive guide that thoroughly covers all aspects of the topic and positions ETN as an authority in travel, especially for travelers with specific needs.
        
        IMPORTANT: Avoid ending with generic phrases like \"So buckle up and start planning your dream vacation!\" Instead, end with specific, actionable advice related to the topic and a natural transition to the call to action.
        "

/-- The full draft-stage user prompt: the research text of the previous
stage is spliced verbatim between head and tail. -/
def writePrompt (blog_request : BlogContentRequest) (research : String) : String :=
  writePromptHead blog_request ++ research ++ writePromptTail blog_request

/-- The part of the optimize-stage f-string (src lines 170-199) that
precedes the interpolated draft text. -/
def optimizePromptHead : String :=
  "
        Optimize this blog draft for search engines following ETN's SEO guidelines:
        
        "

/-- The part of the optimize-stage f-string (src lines 170-199) that
follows the interpolated draft text. -/
def optimizePromptTail (blog_request : BlogContentRequest) : String :=
  "
        
        Primary keywords: " ++ blog_request.primary_keywords ++ "
        Target audience: " ++ blog_request.target_audience ++ "
        
        " ++ ETN_SEO_GUIDELINES ++ "
        
        Please provide:
        1. An SEO-friendly meta title (under 60 characters) that includes the primary keyword and is compelling for clicks
        2. A compelling meta description (under 160 characters) that drives clicks and includes the primary keyword
        3. The optimized blog content with:
           - Proper keyword placement (title, headings, first paragraph, throughout content)
           - Optimized heading structure (H1, H2, H3)
           - Internal linking suggestions (at least 3-5 opportunities to link to other ETN content)
           - External linking suggestions to authoritative sources
           - Image alt text suggestions that include relevant keywords and describe images for accessibility
        
        Format your response as:
        META TITLE: [Your meta title here]
        META DESCRIPTION: [Your meta description here]
        
        OPTIMIZED CONTENT:
        [The optimized blog content]
        
        Ensure the content remains natural and reader-friendly while being optimized for search engines.
        The content should maintain ETN's brand voice while incorporating SEO best practices.
        "

/-- The full optimize-stage user prompt: the draft text is spliced
verbatim between head and tail. -/
def optimizePrompt (blog_request : BlogContentRequest) (blog_content : String) : String :=
  optimizePromptHead ++ blog_content ++ optimizePromptTail blog_request

/-- The part of the edit-stage f-string (src lines 219-251) that precedes
the interpolated SEO-stage text. -/
def editPromptHead : String :=
  "
        Edit and finalize this blog post to professional publishing standards for Effortless Travel Now (ETN):
        
        "

/-- The part of the edit-stage f-string (src lines 219-251) that follows
the interpolated SEO-stage text. -/
def editPromptTail (blog_request : BlogContentRequest) : String :=
  "
        
        Target audience: " ++ blog_request.target_audience ++ "
        Word count: " ++ toString blog_request.desired_word_count ++ " words
        
        " ++ ETN_BRAND_VOICE ++ "
        
        Please:
        1. Correct any grammar, spelling, or punctuation errors
        2. Ensure the content flows logically and smoothly
        3. Verify that the blog meets the word count requirement of at least " ++ toString blog_request.desired_word_count ++ " words
        4. Check that the call to action is clear, compelling, and strategically placed
        5. Ensure the content is properly formatted for web publishing with:
           - Consistent heading hierarchy
           - Short, scannable paragraphs (3-4 sentences maximum)
           - Bulleted or numbered lists where appropriate
           - Proper use of bold and italics for emphasis
           - Transition phrases between sections
        6. Add engaging subheadings if needed
        7. Suggest pull quotes or highlight sections
        8. Ensure all advice is practical and actionable
        9. Remove any generic travel clichés or overly enthusiastic language
        10. Verify that the conclusion is strong and leads naturally to the call to action
        
        The final output should be publication-ready, comprehensive, and meet professional standards.
        It should exemplify ETN's brand voice: friendly yet professional, inclusive, practical, and authoritative without being condescending.
        
        IMPORTANT: Check the ending carefully to ensure it doesn't use generic phrases like \"So buckle up and start planning your dream vacation!\" 
        Instead, it should end with specific, actionable advice related to the topic and a natural transition to the call to action.
        "

/-- The full edit-stage user prompt: the optimize-stage output is spliced
verbatim between head and tail. -/
def editPrompt (blog_request : BlogContentRequest) (seo_content : String) : String :=
  editPromptHead ++ seo_content ++ editPromptTail blog_request

/-- The research-stage system message (src line 101). -/
def researchSystem : String :=
  "You are an expert travel researcher with a talent for finding relevant information, statistics, and insights on travel topics. You provide comprehensive, well-structured research that goes beyond surface-level information. You focus on practical, actionable information that helps travelers, especially those with specific needs like accessibility requirements."

/-- The draft-stage system message (src line 155). -/
def writeSystem : String :=
  "You are a skilled travel copywriter for Effortless Travel Now (ETN), specializing in creating comprehensive, engaging blog content that provides exceptional value to travelers. You excel at creating long-form, authoritative content that ranks well in search engines while maintaining ETN's friendly, inclusive, and practical brand voice. You focus on making travel accessible and enjoyable for all travelers, with special emphasis on those with accessibility needs, pet owners, families, and seniors."

/-- The optimize-stage system message (src line 204). -/
def optimizeSystem : String :=
  "You are an SEO expert for Effortless Travel Now (ETN) who specializes in optimizing travel content to rank well in search engines while maintaining readability and user engagement. You follow white-hat SEO practices exclusively and focus on organic search optimization. You understand the importance of making content accessible to all users, including those with disabilities, and recognize that good accessibility practices often align with good SEO practices."

/-- The edit-stage system message (src line 256). -/
def editSystem : String :=
  "You are a meticulous editor for Effortless Travel Now (ETN) with an eye for detail who ensures content is polished, comprehensive, and ready for publication. You maintain ETN's brand voice: friendly yet professional, inclusive, practical, and authoritative without being condescending. You focus on making travel content accessible and valuable to all travelers, with special emphasis on those with accessibility needs, pet owners, families, and seniors."

/-- A `datetime.now()` instant.  Python's `datetime` guarantees
`1 <= year <= 9999`, `1 <= month <= 12`, and so on; `validRange` below
records the ranges a real clock reading satisfies. -/
structure PyDateTime where
  year : Nat
  month : Nat
  day : Nat
  hour : Nat
  minute : Nat
  second : Nat
deriving DecidableEq

/-- The ranges of a real `datetime.now()` reading (four-digit year: every
wall-clock date since the year 1000; `datetime` itself caps the year at
9999). -/
def PyDateTime.validRange (t : PyDateTime) : Prop :=
  1000 ≤ t.year ∧ t.year ≤ 9999 ∧
  1 ≤ t.month ∧ t.month ≤ 12 ∧
  1 ≤ t.day ∧ t.day ≤ 31 ∧
  t.hour ≤ 23 ∧ t.minute ≤ 59 ∧ t.second ≤ 59

instance (t : PyDateTime) : Decidable t.validRange := by
  unfold PyDateTime.validRange
  infer_instance

/-- The decimal digit character of `n % 10`. -/
def digitChar10 (n : Nat) : Char :=
  Char.ofNat (48 + n % 10)

/-- A two-digit zero-padded decimal field of `strftime` (`%m`, `%d`, `%H`,
`%M`, `%S`); exact for the in-range values `datetime` produces. -/
def pad2 (n : Nat) : String :=
  String.mk [digitChar10 (n / 10), digitChar10 n]

/-- The four-digit `%Y` field of `strftime`; exact for years 1000-9999,
which covers every `datetime.now()` reading. -/
def pad4 (n : Nat) : String :=
  String.mk [digitChar10 (n / 1000), digitChar10 (n / 100), digitChar10 (n / 10), digitChar10 n]

/-- `t.strftime('%Y%m%d%H%M%S')` (src lines 312 and 351). -/
def strftimeYmdHMS (t : PyDateTime) : String :=
  pad4 t.year ++ pad2 t.month ++ pad2 t.day ++ pad2 t.hour ++ pad2 t.minute ++ pad2 t.second

/-- `t.isoformat()` (src line 316), without the microsecond field the
claims never inspect. -/
def pyIsoformat (t : PyDateTime) : String :=
  pad4 t.year ++ "-" ++ pad2 t.month ++ "-" ++ pad2 t.day ++ "T" ++
    pad2 t.hour ++ ":" ++ pad2 t.minute ++ ":" ++ pad2 t.second

/-- Python `a or b` for an optional string `a` (src lines 312 and 351:
`blog_request.task_id or f"BLOG-..."`): both `None` and the empty string
are falsy and select `b`. -/
def pyOrDefault (a : Option String) (b : String) : String :=
  match a with
  | none => b
  | some s => if s = "" then b else s

/-- The spec's task-id shape `BLOG-<14 digits>`. -/
def matchesBlogIdShape (s : String) : Bool :=
  pyStartsWith s "BLOG-" && (s.data.drop 5).length = 14 && (s.data.drop 5).all Char.isDigit

/-- The `try ... except Exception as e` wrapper every stage function uses:
if anything in the stage body fails, the failure is logged and the
sentinel `"Error <verb phrase>: <cause>"` is returned instead of the
exception propagating (src lines 109-111, 163-165, 212-214, 264-266). -/
def stage_try (verbPhrase : String) (body : Except String String) : String :=
  match body with
  | Except.ok t => t
  | Except.error e => "Error " ++ verbPhrase ++ ": " ++ e

/-- The chat-completion call `generate_research` makes (src lines 98-106). -/
def researchCall (blog_request : BlogContentRequest) : CallRecord :=
  { model := "gpt-3.5-turbo-16k"
    system := researchSystem
    prompt := researchPrompt blog_request
    maxTokens := 4000
    temperatureTenths := 7 }

/-- `generate_research` (src lines 68-111): build the research prompt,
call the model once, catch any failure into the sentinel text.  The
second component records the gateway invocation made. -/
def generate_research (gw : Gateway) (blog_request : BlogContentRequest) :
    String × List CallRecord :=
  (stage_try "generating research" (gw (researchCall blog_request)), [researchCall blog_request])

/-- The chat-completion call `write_blog_content` makes (src lines 152-160). -/
def writeCall (blog_request : BlogContentRequest) (research : String) : CallRecord :=
  { model := "gpt-3.5-turbo-16k"
    system := writeSystem
    prompt := writePrompt blog_request research
    maxTokens := 8000
    temperatureTenths := 7 }

/-- `write_blog_content` (src lines 114-165): the research text of the
previous stage is embedded verbatim in the prompt. -/
def write_blog_content (gw : Gateway) (blog_request : BlogContentRequest) (research : String) :
    String × List CallRecord :=
  (stage_try "writing blog content" (gw (writeCall blog_request research)),
   [writeCall blog_request research])

/-- The chat-completion call `optimize_for_seo` makes (src lines 201-209). -/
def optimizeCall (blog_request : BlogContentRequest) (blog_content : String) : CallRecord :=
  { model := "gpt-3.5-turbo-16k"
    system := optimizeSystem
    prompt := optimizePrompt blog_request blog_content
    maxTokens := 8000
    temperatureTenths := 7 }

/-- `optimize_for_seo` (src lines 168-214): the draft text of the previous
stage is embedded verbatim in the prompt. -/
def optimize_for_seo (gw : Gateway) (blog_request : BlogContentRequest) (blog_content : String) :
    String × List CallRecord :=
  (stage_try "optimizing for SEO" (gw (optimizeCall blog_request blog_content)),
   [optimizeCall blog_request blog_content])

/-- The chat-completion call `edit_and_finalize` makes (src lines 253-261;
the one stage run at temperature 0.5). -/
def editCall (blog_request : BlogContentRequest) (seo_content : String) : CallRecord :=
  { model := "gpt-3.5-turbo-16k"
    system := editSystem
    prompt := editPrompt blog_request seo_content
    maxTokens := 8000
    temperatureTenths := 5 }

/-- `edit_and_finalize` (src lines 217-266): the optimize-stage output is
embedded verbatim in the prompt. -/
def edit_and_finalize (gw : Gateway) (blog_request : BlogContentRequest) (seo_content : String) :
    String × List CallRecord :=
  (stage_try "editing and finalizing" (gw (editCall blog_request seo_content)),
   [editCall blog_request seo_content])

/-- The `structured_result` dictionary (src lines 311-322). -/
structure StructuredResult where
  task_id : String
  blog_topic : String
  target_audience : String
  primary_keywords : String
  completion_time : String
  research_summary : String
  blog_draft : String
  meta_title : String
  meta_description : String
  word_count : Nat
deriving DecidableEq

/-- `run_blog_production_workflow` (src lines 283-330): the four stages in
fixed order, each consuming the previous stage's text, then meta
extraction on the optimize-stage output and assembly of the result.
`now` stands for the `datetime.now()` readings of lines 312/316.  The
module-level `try` of lines 284-330 re-raises after logging, and its body
cannot raise (every stage catches its own failures), so the workflow is a
total function; the second component concatenates the gateway invocations
of the four stages in order. -/
def run_blog_production_workflow (now : PyDateTime) (gw : Gateway)
    (blog_request : BlogContentRequest) : StructuredResult × List CallRecord :=
  let research := generate_research gw blog_request
  let blog_content := write_blog_content gw blog_request research.1
  let seo_content := optimize_for_seo gw blog_request blog_content.1
  let final_content := edit_and_finalize gw blog_request seo_content.1
  let meta := extract_meta_data seo_content.1
  ({ task_id := pyOrDefault blog_request.task_id ("BLOG-" ++ strftimeYmdHMS now)
     blog_topic := blog_request.blog_topic
     target_audience := blog_request.target_audience
     primary_keywords := blog_request.primary_keywords
     completion_time := pyIsoformat now
     research_summary := research.1
     blog_draft := final_content.1
     meta_title := meta.1
     meta_description := meta.2
     word_count := (pySplit final_content.1).length },
   research.2 ++ blog_content.2 ++ seo_content.2 ++ final_content.2)

/-- The `HTTPException` raised by the trigger endpoint (src line 343). -/
structure HTTPErrorDetail where
  statusCode : Nat
  detail : String
deriving DecidableEq

/-- The pipeline entry point: the validation of `trigger_blog_production`
(src lines 341-343, `if not blog_request.blog_topic: raise
HTTPException(400, "Blog topic is required")`) followed, when validation
passes, by the dispatched background task `run_blog_production_workflow`
run to completion (src line 346).  The second component again records the
gateway invocations: none at all when validation fails, because the
exception is raised before the workflow is ever dispatched. -/
def runPipeline (now : PyDateTime) (gw : Gateway) (blog_request : BlogContentRequest) :
    Except HTTPErrorDetail StructuredResult × List CallRecord :=
  if blog_request.blog_topic = "" then
    (Except.error { statusCode := 400, detail := "Blog topic is required" }, [])
  else
    let r := run_blog_production_workflow now gw blog_request
    (Except.ok r.1, r.2)

/-- The concrete request of the spec's pet-friendly-beaches scenario.  The
scenario fixes five fields; the requester identity is irrelevant to every
asserted output and is left empty. -/
def petRequest : BlogContentRequest :=
  { blog_topic := "Pet-Friendly Beaches"
    primary_keywords := "pet travel, dog beaches"
    target_audience := "pet owners"
    call_to_action := "Book your pet-friendly stay today"
    desired_word_count := 1200
    requester_email := "" }

/-- A fixed clock reading used to instantiate theorems on concrete runs. -/
def dt0 : PyDateTime :=
  { year := 2026, month := 10, day := 12, hour := 0, minute := 0, second := 0 }

/-- The spec scenario's stub gateway: the four stage calls carry four
distinct system messages, so answering by system message returns exactly
the four fixed strings for the four calls in pipeline order. -/
def stubGateway : Gateway := fun c =>
  if c.system = researchSystem then Except.ok "RESEARCH_X"
  else if c.system = writeSystem then Except.ok "DRAFT_X"
  else if c.system = optimizeSystem then
    Except.ok "META TITLE: Best Dog Beaches\nMETA DESCRIPTION: Top beaches for pets\nOPTIMIZED CONTENT:\nBODY_X"
  else Except.ok "FINAL_X"

/-- A gateway whose every call raises, with cause `boom`. -/
def failGateway : Gateway := fun _ => Except.error "boom"

/-- A request with an empty topic (all other fields arbitrary). -/
def emptyTopicRequest : BlogContentRequest :=
  { blog_topic := ""
    primary_keywords := "k"
    target_audience := "a"
    call_to_action := "c"
    requester_email := "r" }

set_option maxRecDepth 20000 in
example :
    (run_blog_production_workflow dt0 stubGateway petRequest).1.meta_title
      = "Best Dog Beaches" := by decide

/-- Unfolding `String` append to list append. -/
theorem sdata_append (a b : String) : (a ++ b).data = a.data ++ b.data := by
  cases a
  cases b
  rfl

/-- A line reacting to neither marker leaves the loop accumulator
unchanged. -/
theorem processLine_not_marker (acc : String × String) (line : String)
    (h : isMarkerLine line = false) : processLine acc line = acc := by
  simp only [isMarkerLine, Bool.or_eq_false_iff] at h
  simp [processLine, h.1, h.2]

/-- The loop of `extract_meta_data` ignores every non-marker line: folding
over all lines equals folding over the marker lines alone. -/
theorem foldl_processLine_filter (lines : List String) (acc : String × String) :
    lines.foldl processLine acc = (lines.filter isMarkerLine).foldl processLine acc := by
  induction lines generalizing acc with
  | nil => rfl
  | cons l ls ih =>
    cases h : isMarkerLine l with
    | true => simp [List.filter_cons, h, ih]
    | false => simp [List.filter_cons, h, processLine_not_marker acc l h, ih]

/-- No line starts with both marker prefixes: the shorter would then be a
prefix of the longer, which it is not. -/
theorem not_title_and_desc (l : String) :
    ¬ (pyStartsWith l "META TITLE:" = true ∧ pyStartsWith l "META DESCRIPTION:" = true) := by
  rintro ⟨ht, hd⟩
  have h1 : "META TITLE:".data <+: l.data := List.isPrefixOf_iff_prefix.mp ht
  have h2 : "META DESCRIPTION:".data <+: l.data := List.isPrefixOf_iff_prefix.mp hd
  have h3 : "META TITLE:".data <+: "META DESCRIPTION:".data :=
    List.prefix_of_prefix_length_le h1 h2 (by decide)
  have h4 := List.isPrefixOf_iff_prefix.mpr h3
  exact absurd h4 (by decide)

/-- The title accumulated by the loop is the value of the last
title-marker line, and the initial title if there is none. -/
theorem foldl_processLine_fst (lines : List String) (acc : String × String) :
    (lines.foldl processLine acc).1 =
      match (lines.filter (fun l => pyStartsWith l "META TITLE:")).getLast? with
      | some l => titleVal l
      | none => acc.1 := by
  induction lines generalizing acc with
  | nil => rfl
  | cons l ls ih =>
    cases ht : pyStartsWith l "META TITLE:" with
    | true =>
      rw [List.foldl_cons, ih]
      have hstep : processLine acc l = (titleVal l, acc.2) := by simp [processLine, ht]
      rw [hstep]
      cases hrf : ls.filter (fun l => pyStartsWith l "META TITLE:") with
      | nil => simp [List.filter_cons, ht, hrf]
      | cons a as =>
        cases hg : (a :: as).getLast? with
        | none => exact absurd (List.getLast?_eq_none_iff.mp hg) (by simp)
        | some x => simp [List.filter_cons, ht, hrf, List.getLast?_cons_cons, hg]
    | false =>
      rw [List.foldl_cons, ih]
      have hstep : (processLine acc l).1 = acc.1 := by
        cases hd : pyStartsWith l "META DESCRIPTION:" <;> simp [processLine, ht, hd]
      simp [List.filter_cons, ht, hstep]

/-- The description accumulated by the loop is the value of the last
description-marker line, and the initial description if there is none. -/
theorem foldl_processLine_snd (lines : List String) (acc : String × String) :
    (lines.foldl processLine acc).2 =
      match (lines.filter (fun l => pyStartsWith l "META DESCRIPTION:")).getLast? with
      | some l => descVal l
      | none => acc.2 := by
  induction lines generalizing acc with
  | nil => rfl
  | cons l ls ih =>
    cases hd : pyStartsWith l "META DESCRIPTION:" with
    | true =>
      have ht : pyStartsWith l "META TITLE:" = false := by
        cases hx : pyStartsWith l "META TITLE:" with
        | true => exact absurd ⟨hx, hd⟩ (not_title_and_desc l)
        | false => rfl
      rw [List.foldl_cons, ih]
      have hstep : processLine acc l = (acc.1, descVal l) := by simp [processLine, ht, hd]
      rw [hstep]
      cases hrf : ls.filter (fun l => pyStartsWith l "META DESCRIPTION:") with
      | nil => simp [List.filter_cons, hd, hrf]
      | cons a as =>
        cases hg : (a :: as).getLast? with
        | none => exact absurd (List.getLast?_eq_none_iff.mp hg) (by simp)
        | some x => simp [List.filter_cons, hd, hrf, List.getLast?_cons_cons, hg]
    | false =>
      rw [List.foldl_cons, ih]
      have hstep : (processLine acc l).2 = acc.2 := by
        cases ht : pyStartsWith l "META TITLE:" <;> simp [processLine, ht, hd]
      simp [List.filter_cons, hd, hstep]

/-- If the pattern occurs nowhere in the scanned list, `pyReplaceAux`
returns it unchanged, whatever the fuel. -/
theorem pyReplaceAux_of_not_infix (pat repl : List Char) :
    ∀ (s : List Char) (fuel : Nat), ¬ pat <:+: s → pyReplaceAux pat repl fuel s = s := by
  intro s
  induction s with
  | nil => intro fuel _; cases fuel <;> rfl
  | cons c cs ih =>
    intro fuel h
    cases fuel with
    | zero => rfl
    | succ f =>
      have hp : pat.isPrefixOf (c :: cs) = false := by
        cases hx : pat.isPrefixOf (c :: cs) with
        | false => rfl
        | true =>
          exact absurd (List.IsPrefix.isInfix (List.isPrefixOf_iff_prefix.mp hx)) h
      have hcs : ¬ pat <:+: cs := fun hin => h (List.infix_cons hin)
      simp [pyReplaceAux, hp, ih f hcs]

/-- One step of `pyReplaceAux` on a list that begins with the (non-empty)
pattern: the pattern is consumed and replaced. -/
theorem pyReplaceAux_cons_pat (p : Char) (pt repl rest : List Char) (f : Nat) :
    pyReplaceAux (p :: pt) repl (f + 1) ((p :: pt) ++ rest) =
      repl ++ pyReplaceAux (p :: pt) repl f rest := by
  have hp : (p :: pt).isPrefixOf ((p :: pt) ++ rest) = true :=
    List.isPrefixOf_iff_prefix.mpr (List.prefix_append _ _)
  have hdrop : ((p :: pt) ++ rest).drop (p :: pt).length = rest := List.drop_left _ _
  rw [List.cons_append] at hp hdrop ⊢
  simp [pyReplaceAux, hp, hdrop]

/-- `line.replace(pat, "")` on a line that is the pattern followed by a
remainder free of further occurrences of the pattern: exactly the
remainder is left. -/
theorem pyReplace_pat_append (pat rest : String) (hne : pat.data ≠ [])
    (hno : ¬ pat.data <:+: rest.data) : pyReplace (pat ++ rest) pat "" = rest := by
  unfold pyReplace
  rw [sdata_append]
  cases hp : pat.data with
  | nil => exact absurd hp hne
  | cons p pt =>
    have hlen : ((p :: pt) ++ rest.data).length = (pt.length + rest.data.length) + 1 := by
      simp [List.length_append]
      try omega
    rw [hlen, pyReplaceAux_cons_pat, pyReplaceAux_of_not_infix _ _ _ _ (hp ▸ hno)]
    cases rest
    rfl

/-- Splitting a list without separators yields the one-piece split. -/
theorem splitOnPList_no_sep (p : Char → Bool) :
    ∀ (l : List Char), (∀ c ∈ l, p c = false) → splitOnPList p l = [l] := by
  intro l
  induction l with
  | nil => intro _; rfl
  | cons c cs ih =>
    intro h
    have hc : p c = false := h c (by simp)
    have hcs := ih (fun x hx => h x (by simp [hx]))
    simp [splitOnPList, hc, hcs]

/-- A string without newline characters splits into the single line that
is the string itself. -/
theorem pySplitLines_single (s : String) (h : ∀ c ∈ s.data, c ≠ '\n') :
    pySplitLines s = [s] := by
  unfold pySplitLines
  rw [splitOnPList_no_sep]
  · cases s
    rfl
  · intro c hc
    simp [h c hc]

/-- Every character `digitChar10` produces is a decimal digit. -/
theorem digitChar10_isDigit (n : Nat) : (digitChar10 n).isDigit = true := by
  unfold digitChar10
  have h : n % 10 < 10 := Nat.mod_lt n (by decide)
  set k := n % 10 with hk
  interval_cases k <;> decide

/-- A synthesized task id always has the `BLOG-<14 digits>` shape (the
`%Y%m%d%H%M%S` rendering is four digits of year and two of each other
field). -/
theorem blogId_shape (t : PyDateTime) :
    matchesBlogIdShape ("BLOG-" ++ strftimeYmdHMS t) = true := by
  have hL : (strftimeYmdHMS t).data =
      [digitChar10 (t.year / 1000), digitChar10 (t.year / 100),
       digitChar10 (t.year / 10), digitChar10 t.year,
       digitChar10 (t.month / 10), digitChar10 t.month,
       digitChar10 (t.day / 10), digitChar10 t.day,
       digitChar10 (t.hour / 10), digitChar10 t.hour,
       digitChar10 (t.minute / 10), digitChar10 t.minute,
       digitChar10 (t.second / 10), digitChar10 t.second] := by
    simp [strftimeYmdHMS, pad4, pad2, sdata_append]
  have h1 : pyStartsWith ("BLOG-" ++ strftimeYmdHMS t) "BLOG-" = true := by
    unfold pyStartsWith
    rw [sdata_append]
    exact List.isPrefixOf_iff_prefix.mpr (List.prefix_append _ _)
  have h2 : ("BLOG-" ++ strftimeYmdHMS t).data.drop 5 = (strftimeYmdHMS t).data := by
    rw [sdata_append]
    have h5 : (5 : Nat) = ("BLOG-".data).length := rfl
    rw [h5, List.drop_left]
  unfold matchesBlogIdShape
  rw [h1, h2, hL]
  simp [digitChar10_isDigit]

/-- C1: if the model call of any of the four stages (Research, Draft,
Optimize, Edit) fails, that stage catches the error and returns the
sentinel text `Error <verb>ing <stage>: <cause>` instead of propagating
the exception; the sentinel (like any stage output) is threaded verbatim
into the next stage's prompt between that prompt's fixed head and tail;
and the workflow still completes, returning a structured result whose
fields are assembled from the (possibly degraded) stage outputs — by the
types of the embedding no model-call exception can escape. -/
theorem stage_failure_containment (now : PyDateTime) (gw : Gateway)
    (req : BlogContentRequest) (research blog_content seo_content e : String) :
    (gw (researchCall req) = Except.error e →
      (generate_research gw req).1 = "Error generating research: " ++ e) ∧
    (gw (writeCall req research) = Except.error e →
      (write_blog_content gw req research).1 = "Error writing blog content: " ++ e) ∧
    (gw (optimizeCall req blog_content) = Except.error e →
      (optimize_for_seo gw req blog_content).1 = "Error optimizing for SEO: " ++ e) ∧
    (gw (editCall req seo_content) = Except.error e →
      (edit_and_finalize gw req seo_content).1 = "Error editing and finalizing: " ++ e) ∧
    (writeCall req research).prompt
      = writePromptHead req ++ research ++ writePromptTail req ∧
    (optimizeCall req blog_content).prompt
      = optimizePromptHead ++ blog_content ++ optimizePromptTail req ∧
    (editCall req seo_content).prompt
      = editPromptHead ++ seo_content ++ editPromptTail req ∧
    (run_blog_production_workflow now gw req).1.research_summary
      = (generate_research gw req).1 ∧
    (run_blog_production_workflow now gw req).1.blog_draft
      = (edit_and_finalize gw req
          (optimize_for_seo gw req
            (write_blog_content gw req (generate_research gw req).1).1).1).1 := by
  refine ⟨?_, ?_, ?_, ?_, rfl, rfl, rfl, rfl, rfl⟩ <;>
    intro h <;>
    simp [generate_research, write_blog_content, optimize_for_seo, edit_and_finalize,
      stage_try, h]

/-- Witness for C1 at a concrete run: an always-failing gateway with
cause `boom` makes each of the four stages return its sentinel. -/
theorem stage_failure_containment_witness :
    (generate_research failGateway petRequest).1 = "Error generating research: boom" ∧
    (write_blog_content failGateway petRequest "R").1 = "Error writing blog content: boom" ∧
    (optimize_for_seo failGateway petRequest "D").1 = "Error optimizing for SEO: boom" ∧
    (edit_and_finalize failGateway petRequest "S").1 = "Error editing and finalizing: boom" :=
  have t := stage_failure_containment dt0 failGateway petRequest "R" "D" "S" "boom"
  ⟨t.1 rfl, t.2.1 rfl, t.2.2.1 rfl, t.2.2.2.1 rfl⟩

set_option maxRecDepth 40000

/-- C2: the spec's concrete pet-friendly-beaches scenario.  With the stub
gateway answering the four stage calls with the four fixed strings, the
run's result has meta_title `Best Dog Beaches` and meta_description
`Top beaches for pets` (read from the Optimize-stage output, not the
Edit-stage output), blog_draft `FINAL_X` and word_count 1; and the run
made exactly the four stage calls in pipeline order. -/
theorem pet_scenario_result :
    ((run_blog_production_workflow dt0 stubGateway petRequest).1.meta_title,
     (run_blog_production_workflow dt0 stubGateway petRequest).1.meta_description,
     (run_blog_production_workflow dt0 stubGateway petRequest).1.blog_draft,
     (run_blog_production_workflow dt0 stubGateway petRequest).1.word_count)
      = ("Best Dog Beaches", "Top beaches for pets", "FINAL_X", 1) ∧
    (run_blog_production_workflow dt0 stubGateway petRequest).2.map CallRecord.system
      = [researchSystem, writeSystem, optimizeSystem, editSystem] := by
  constructor
  · decide
  · decide

/-- C3: a request with an empty topic makes the entry point fail fast
with the 400 validation error and an empty invocation list (zero gateway
calls); with a non-empty topic the entry point never raises — it returns
`ok` around the completed workflow, so the validation failure is the only
hard-stop failure path. -/
theorem empty_topic_fails_fast (now : PyDateTime) (gw : Gateway) (req : BlogContentRequest) :
    (req.blog_topic = "" →
      runPipeline now gw req
        = (Except.error { statusCode := 400, detail := "Blog topic is required" }, [])) ∧
    (req.blog_topic ≠ "" →
      runPipeline now gw req
        = (Except.ok (run_blog_production_workflow now gw req).1,
           (run_blog_production_workflow now gw req).2)) := by
  constructor <;> intro h <;> simp [runPipeline, h]

/-- Witness for C3: the concrete empty-topic request is rejected with the
validation error and no gateway calls, and the concrete pet request runs
to completion. -/
theorem empty_topic_fails_fast_witness :
    runPipeline dt0 failGateway emptyTopicRequest
      = (Except.error { statusCode := 400, detail := "Blog topic is required" }, []) ∧
    runPipeline dt0 stubGateway petRequest
      = (Except.ok (run_blog_production_workflow dt0 stubGateway petRequest).1,
         (run_blog_production_workflow dt0 stubGateway petRequest).2) :=
  ⟨(empty_topic_fails_fast dt0 failGateway emptyTopicRequest).1 rfl,
   (empty_topic_fails_fast dt0 stubGateway petRequest).2 (by decide)⟩

/-- C4: every completed run's result carries the research text and the
final edited text (Lean strings, hence never null — as in the source,
where every stage returns a `str`), and its word_count equals the number
of whitespace-separated tokens of the final edited text `blog_draft`. -/
theorem result_word_count (now : PyDateTime) (gw : Gateway) (req : BlogContentRequest) :
    (run_blog_production_workflow now gw req).1.word_count
      = (pySplit (run_blog_production_workflow now gw req).1.blog_draft).length ∧
    (run_blog_production_workflow now gw req).1.research_summary
      = (generate_research gw req).1 ∧
    ((run_blog_production_workflow now gw req).1.meta_title,
     (run_blog_production_workflow now gw req).1.meta_description)
      = extract_meta_data
          (optimize_for_seo gw req
            (write_blog_content gw req (generate_research gw req).1).1).1 :=
  ⟨rfl, rfl, rfl⟩

/-- C10: the `try/except Exception` of each stage wraps the whole stage
body (prompt construction — total string interpolation, as in the source
— followed by the model call), so for every gateway outcome each of the
four stage functions returns a string and never raises: the ok text when
the call succeeds, the sentinel when anything in the body fails. -/
theorem stage_body_catch_all (gw : Gateway) (req : BlogContentRequest)
    (research blog_content seo_content : String) :
    ((∃ t, gw (researchCall req) = Except.ok t ∧ (generate_research gw req).1 = t) ∨
     (∃ e, gw (researchCall req) = Except.error e ∧
        (generate_research gw req).1 = "Error generating research: " ++ e)) ∧
    ((∃ t, gw (writeCall req research) = Except.ok t ∧
        (write_blog_content gw req research).1 = t) ∨
     (∃ e, gw (writeCall req research) = Except.error e ∧
        (write_blog_content gw req research).1 = "Error writing blog content: " ++ e)) ∧
    ((∃ t, gw (optimizeCall req blog_content) = Except.ok t ∧
        (optimize_for_seo gw req blog_content).1 = t) ∨
     (∃ e, gw (optimizeCall req blog_content) = Except.error e ∧
        (optimize_for_seo gw req blog_content).1 = "Error optimizing for SEO: " ++ e)) ∧
    ((∃ t, gw (editCall req seo_content) = Except.ok t ∧
        (edit_and_finalize gw req seo_content).1 = t) ∨
     (∃ e, gw (editCall req seo_content) = Except.error e ∧
        (edit_and_finalize gw req seo_content).1 = "Error editing and finalizing: " ++ e)) := by
  refine ⟨?_, ?_, ?_, ?_⟩
  · cases h : gw (researchCall req) with
    | ok t => exact Or.inl ⟨t, rfl, by simp [generate_research, stage_try, h]⟩
    | error e => exact Or.inr ⟨e, rfl, by simp [generate_research, stage_try, h]⟩
  · cases h : gw (writeCall req research) with
    | ok t => exact Or.inl ⟨t, rfl, by simp [write_blog_content, stage_try, h]⟩
    | error e => exact Or.inr ⟨e, rfl, by simp [write_blog_content, stage_try, h]⟩
  · cases h : gw (optimizeCall req blog_content) with
    | ok t => exact Or.inl ⟨t, rfl, by simp [optimize_for_seo, stage_try, h]⟩
    | error e => exact Or.inr ⟨e, rfl, by simp [optimize_for_seo, stage_try, h]⟩
  · cases h : gw (editCall req seo_content) with
    | ok t => exact Or.inl ⟨t, rfl, by simp [edit_and_finalize, stage_try, h]⟩
    | error e => exact Or.inr ⟨e, rfl, by simp [edit_and_finalize, stage_try, h]⟩

/-- C5: when several lines start with `META TITLE:` (respectively
`META DESCRIPTION:`), extraction returns the value taken from the last
such line — the loop overwrites on every match, with no early exit. -/
theorem marker_last_wins (s tl dl : String) :
    (2 ≤ ((pySplitLines s).filter (fun l => pyStartsWith l "META TITLE:")).length →
      ((pySplitLines s).filter (fun l => pyStartsWith l "META TITLE:")).getLast? = some tl →
      (extract_meta_data s).1 = titleVal tl) ∧
    (2 ≤ ((pySplitLines s).filter (fun l => pyStartsWith l "META DESCRIPTION:")).length →
      ((pySplitLines s).filter (fun l => pyStartsWith l "META DESCRIPTION:")).getLast?
        = some dl →
      (extract_meta_data s).2 = descVal dl) := by
  constructor
  · intro _ hlast
    unfold extract_meta_data
    rw [foldl_processLine_fst, hlast]
  · intro _ hlast
    unfold extract_meta_data
    rw [foldl_processLine_snd, hlast]

/-- A text with two title-marker lines and two description-marker lines. -/
def ex5 : String :=
  "META TITLE: One\nMETA TITLE: Two\nMETA DESCRIPTION: D1\nMETA DESCRIPTION: D2"

/-- Witness for C5: on the concrete four-marker text, extraction returns
the values of the second (last) line of each kind. -/
theorem marker_last_wins_witness :
    (extract_meta_data ex5).1 = titleVal "META TITLE: Two" ∧
    (extract_meta_data ex5).2 = descVal "META DESCRIPTION: D2" :=
  ⟨(marker_last_wins ex5 "META TITLE: Two" "META DESCRIPTION: D2").1 (by decide) (by decide),
   (marker_last_wins ex5 "META TITLE: Two" "META DESCRIPTION: D2").2 (by decide) (by decide)⟩

/-- C6: when no line starts with either marker, extraction returns the
pair of empty strings; it is a total function on all strings (it never
fails), merely degrading to empty fields. -/
theorem missing_markers_default (s : String)
    (hT : ∀ l ∈ pySplitLines s, pyStartsWith l "META TITLE:" = false)
    (hD : ∀ l ∈ pySplitLines s, pyStartsWith l "META DESCRIPTION:" = false) :
    extract_meta_data s = ("", "") := by
  have hfT : (pySplitLines s).filter (fun l => pyStartsWith l "META TITLE:") = [] :=
    List.filter_eq_nil_iff.mpr (fun l hl => by simp [hT l hl])
  have hfD : (pySplitLines s).filter (fun l => pyStartsWith l "META DESCRIPTION:") = [] :=
    List.filter_eq_nil_iff.mpr (fun l hl => by simp [hD l hl])
  have h1 := foldl_processLine_fst (pySplitLines s) ("", "")
  have h2 := foldl_processLine_snd (pySplitLines s) ("", "")
  rw [hfT] at h1
  rw [hfD] at h2
  rw [Prod.ext_iff]
  exact ⟨h1, h2⟩

/-- Witness for C6: a concrete marker-free text extracts to `("", "")`. -/
theorem missing_markers_default_witness :
    extract_meta_data "no markers here\njust text" = ("", "") :=
  missing_markers_default "no markers here\njust text" (by decide) (by decide)

/-- The trimmed remainder of `line` after its first `pre.length`
characters — the per-line transformation the claim asserts. -/
def remainderAfter (line pre : String) : String :=
  pyStrip (String.mk (line.data.drop pre.data.length))

/-- A marker line whose remainder contains the marker again. -/
def repeatedMarkerLine : String := "META TITLE: A META TITLE: B"

/-- C7 counterexample: on the line `META TITLE: A META TITLE: B`, whose
remainder after the prefix contains the prefix again, extraction yields
`A  B` (the source's `line.replace` removes every occurrence of the
prefix), not the trimmed remainder `A META TITLE: B` the claim asserts. -/
theorem meta_value_not_remainder :
    extract_meta_data repeatedMarkerLine = ("A  B", "") ∧
    remainderAfter repeatedMarkerLine "META TITLE:" = "A META TITLE: B" ∧
    ("A  B" : String) ≠ "A META TITLE: B" := by
  refine ⟨by decide, by decide, by decide⟩

/-- C7 (amended): for a line that starts with a marker prefix, the
extracted value is the line with every occurrence of the prefix removed
and surrounding whitespace trimmed; this equals the trimmed remainder
after the prefix exactly when the remainder does not itself contain the
prefix again (and a single marker line extracts to its value). -/
theorem meta_line_value (rest drest : String) :
    titleVal ("META TITLE:" ++ rest)
      = pyStrip (pyReplace ("META TITLE:" ++ rest) "META TITLE:" "") ∧
    (¬ "META TITLE:".data <:+: rest.data →
      titleVal ("META TITLE:" ++ rest) = pyStrip rest) ∧
    (¬ "META DESCRIPTION:".data <:+: drest.data →
      descVal ("META DESCRIPTION:" ++ drest) = pyStrip drest) ∧
    ((∀ c ∈ rest.data, c ≠ '\n') →
      extract_meta_data ("META TITLE:" ++ rest)
        = (titleVal ("META TITLE:" ++ rest), "")) := by
  refine ⟨rfl, ?_, ?_, ?_⟩
  · intro h
    unfold titleVal
    rw [pyReplace_pat_append _ _ (by decide) h]
  · intro h
    unfold descVal
    rw [pyReplace_pat_append _ _ (by decide) h]
  · intro h
    have hl : pySplitLines ("META TITLE:" ++ rest) = ["META TITLE:" ++ rest] := by
      apply pySplitLines_single
      intro c hc
      rw [sdata_append] at hc
      rcases List.mem_append.mp hc with h1 | h2
      · exact (by decide : ∀ c ∈ "META TITLE:".data, c ≠ '\n') c h1
      · exact h c h2
    have ht : pyStartsWith ("META TITLE:" ++ rest) "META TITLE:" = true := by
      unfold pyStartsWith
      rw [sdata_append]
      exact List.isPrefixOf_iff_prefix.mpr (List.prefix_append _ _)
    unfold extract_meta_data
    rw [hl]
    simp [List.foldl, processLine, ht]

/-- Witness for C7's amended statement at concrete lines whose remainders
are free of further marker occurrences. -/
theorem meta_line_value_witness :
    titleVal ("META TITLE:" ++ " Best Beaches") = pyStrip " Best Beaches" ∧
    descVal ("META DESCRIPTION:" ++ " Great pets") = pyStrip " Great pets" ∧
    extract_meta_data ("META TITLE:" ++ " Best Beaches")
      = (titleVal ("META TITLE:" ++ " Best Beaches"), "") :=
  ⟨(meta_line_value " Best Beaches" " Great pets").2.1 (by decide),
   (meta_line_value " Best Beaches" " Great pets").2.2.1 (by decide),
   (meta_line_value " Best Beaches" " Great pets").2.2.2 (by decide)⟩

/-- C8: extraction depends only on the marker lines: any two texts whose
marker-line sequences coincide — in particular texts differing by
inserting, removing or reordering non-marker lines — extract to the same
pair. -/
theorem extraction_marker_lines_only (s t : String)
    (h : (pySplitLines s).filter isMarkerLine = (pySplitLines t).filter isMarkerLine) :
    extract_meta_data s = extract_meta_data t := by
  unfold extract_meta_data
  rw [foldl_processLine_filter, h, ← foldl_processLine_filter]

/-- Two texts with the same marker lines amid different non-marker lines. -/
def ex8a : String := "intro line\nMETA TITLE: T\nmiddle\nMETA DESCRIPTION: D\ntail line"

/-- Companion of `ex8a` for the C8 witness. -/
def ex8b : String := "META TITLE: T\nMETA DESCRIPTION: D\ncompletely different filler"

/-- Witness for C8 at two concrete texts. -/
theorem extraction_marker_lines_only_witness :
    extract_meta_data ex8a = extract_meta_data ex8b :=
  extraction_marker_lines_only ex8a ex8b (by decide)

/-- The pet request with an explicit empty-string task identifier. -/
def emptyIdRequest : BlogContentRequest := { petRequest with task_id := some "" }

/-- The pet request with an explicit non-empty task identifier. -/
def explicitIdRequest : BlogContentRequest := { petRequest with task_id := some "TASK-42" }

/-- C9 counterexample: a request carrying the explicit task identifier
`""` does not have it preserved verbatim — `blog_request.task_id or ...`
treats the empty string as absent and synthesizes a timestamp id. -/
theorem task_id_empty_not_preserved :
    emptyIdRequest.task_id = some "" ∧
    (run_blog_production_workflow dt0 stubGateway emptyIdRequest).1.task_id
      = "BLOG-20261012000000" ∧
    ("BLOG-20261012000000" : String) ≠ "" := by
  refine ⟨rfl, by decide, by decide⟩

/-- C9 (amended): a request whose task identifier is absent — or, by
Python truthiness, explicitly the empty string — gets a task id
synthesized from the current timestamp, of the shape `BLOG-<14 digits>`;
a request with an explicit non-empty task identifier has it preserved
verbatim in the result. -/
theorem task_id_synthesis (now : PyDateTime) (gw : Gateway) (req : BlogContentRequest) :
    (now.validRange → (req.task_id = none ∨ req.task_id = some "") →
      (run_blog_production_workflow now gw req).1.task_id = "BLOG-" ++ strftimeYmdHMS now ∧
      matchesBlogIdShape (run_blog_production_workflow now gw req).1.task_id = true) ∧
    (∀ s, req.task_id = some s → s ≠ "" →
      (run_blog_production_workflow now gw req).1.task_id = s) := by
  have hproj : (run_blog_production_workflow now gw req).1.task_id
      = pyOrDefault req.task_id ("BLOG-" ++ strftimeYmdHMS now) := rfl
  constructor
  · intro _ habs
    have hid : (run_blog_production_workflow now gw req).1.task_id
        = "BLOG-" ++ strftimeYmdHMS now := by
      rw [hproj]
      rcases habs with h | h <;> simp [pyOrDefault, h]
    refine ⟨hid, ?_⟩
    rw [hid]
    exact blogId_shape now
  · intro s hs hne
    rw [hproj, hs]
    simp [pyOrDefault, hne]

/-- Witness for C9's amended statement: without a task id the pet run
synthesizes a `BLOG-<14 digits>` id; with the explicit id `TASK-42` the
id is preserved. -/
theorem task_id_synthesis_witness :
    ((run_blog_production_workflow dt0 stubGateway petRequest).1.task_id
        = "BLOG-" ++ strftimeYmdHMS dt0 ∧
      matchesBlogIdShape
        (run_blog_production_workflow dt0 stubGateway petRequest).1.task_id = true) ∧
    (run_blog_production_workflow dt0 stubGateway explicitIdRequest).1.task_id = "TASK-42" :=
  ⟨(task_id_synthesis dt0 stubGateway petRequest).1 (by decide) (Or.inl rfl),
   (task_id_synthesis dt0 stubGateway explicitIdRequest).2 "TASK-42" rfl (by decide)⟩
